import Mathlib

/-!
Verification of the short-video generation pipeline
(`src/generator/script_generator.py`, `src/generator/video_generator.py`,
`src/voice_avatar/alternative_integrator.py`,
`src/voice_avatar/voice_video_integrator.py`, orchestrated by
`src/shorts_generator.py`) against its natural-language specification.

Python strings are modelled as lists of characters (`Str`); Python's
`str.split()` (whitespace split, empties dropped), `str.split('\n\n')`,
`' '.join`, `str.strip()` and `str.upper()` are reimplemented below with
the same semantics (restricted to ASCII whitespace, which is the only
whitespace the pipeline's own text contains).
-/

namespace ShortsPipeline

/-- A Python string, modelled as its list of characters. -/
abbrev Str := List Char

/-- ASCII whitespace, the characters Python's `str.split()` and
`str.strip()` treat as separators (restricted to the ASCII range). -/
def isSpace (c : Char) : Bool :=
  c == ' ' || c == '\t' || c == '\n' || c == '\r' || c == '\x0b' || c == '\x0c'

/-- Worker for `pySplit`: `cur` holds the characters of the word currently
being read, in reverse order. -/
def pySplitAux (cur : Str) : Str → List Str
  | [] => if cur = [] then [] else [cur.reverse]
  | c :: cs =>
    if isSpace c then
      if cur = [] then pySplitAux [] cs else cur.reverse :: pySplitAux [] cs
    else pySplitAux (c :: cur) cs

/-- Python `s.split()`: split on runs of whitespace, dropping empty pieces. -/
def pySplit (s : Str) : List Str := pySplitAux [] s

/-- Python `len(s.split())`, the word count used throughout
`script_generator.py`. -/
def wordCount (s : Str) : Nat := (pySplit s).length

/-- Python `' '.join(ws)`. -/
def joinSpace : List Str → Str
  | [] => []
  | [w] => w
  | w :: ws => w ++ ' ' :: joinSpace ws

/-- Worker for `splitOnBlank`: Python `s.split('\n\n')`, scanning left to
right for non-overlapping occurrences of the two-character separator. -/
def splitOnBlankAux (cur : Str) : Str → List Str
  | [] => [cur.reverse]
  | [c] => [(c :: cur).reverse]
  | c :: d :: cs =>
    if c = '\n' ∧ d = '\n' then cur.reverse :: splitOnBlankAux [] cs
    else splitOnBlankAux (c :: cur) (d :: cs)

/-- Python `s.split('\n\n')`. -/
def splitOnBlank (s : Str) : List Str := splitOnBlankAux [] s

/-- Python `'\n\n'.join(ps)`  (the inverse of `splitOnBlank`). -/
def joinBlank : List Str → Str
  | [] => []
  | [p] => p
  | p :: ps => p ++ '\n' :: '\n' :: joinBlank ps

/-- The blank-line separator `"\n\n"` used by `generate_script` and
`_adjust_script_length`. -/
def blankSep : Str := ['\n', '\n']

/-- Python `s.strip()`. -/
def pyStrip (s : Str) : Str :=
  ((s.dropWhile fun c => isSpace c).reverse.dropWhile fun c => isSpace c).reverse

/-- Python `s.upper()` (ASCII case mapping; the pipeline only upcases
content-block type tags such as `"h1"`, `"p"`). -/
def pyUpper (s : Str) : Str := s.map Char.toUpper

/-! ## Script generator (`src/generator/script_generator.py`) -/

/-- The `ShortScriptGenerator` configuration: `max_duration` and
`max_words` constructor arguments (defaults 60 and 150). -/
structure ScriptConfig where
  maxDuration : Nat := 60
  maxWords : Nat := 150
deriving DecidableEq, Repr

/-- One entry of the article's `content` list: a dict with `type` and
`text` fields. -/
structure ContentBlock where
  btype : Str
  text : Str
deriving DecidableEq, Repr

/-- The normalized article record consumed by `generate_script`. -/
structure ArticleData where
  title : Str
  author : Str
  summary : Str
  content : List ContentBlock
  url : Str
deriving DecidableEq, Repr

/-- The script dict produced by `generate_script`. -/
structure ScriptData where
  title : Str
  intro : Str
  body : Str
  conclusion : Str
  full_script : Str
  word_count : Nat
  estimated_duration : Nat
  article_url : Str
deriving DecidableEq, Repr

/-- The three `random.choice` draws made by `_generate_intro` (one) and
`_generate_conclusion` (two): indices into the template lists. -/
structure RandomChoices where
  introIdx : Fin 3
  conclIdx : Fin 3
  engageIdx : Fin 3
deriving DecidableEq, Repr

/-- The `intro_templates` list of `_generate_intro`, with the title
interpolated. -/
def introTemplate (i : Fin 3) (title : Str) : Str :=
  if i = 0 then
    ("Bonjour à tous ! Aujourd'hui, je vous présente un article intéressant intitulé \"").data
      ++ title ++ ("\".").data
  else if i = 1 then
    ("Salut ! Je vais vous parler de \"").data ++ title
      ++ ("\", un article qui mérite votre attention.").data
  else
    ("Bienvenue ! Dans cette vidéo, je vais vous résumer l'article \"").data
      ++ title ++ ("\".").data

/-- `_generate_intro`: pick a template, then append the author sentence
when the author is known. -/
def generateIntro (title author : Str) (i : Fin 3) : Str :=
  let intro := introTemplate i title
  if author ≠ [] ∧ author ≠ ("Auteur inconnu").data then
    intro ++ (" Cet article a été écrit par ").data ++ author ++ ['.']
  else intro

/-- The `conclusion_templates` list of `_generate_conclusion`. -/
def conclusionTemplate (i : Fin 3) (title : Str) : Str :=
  if i = 0 then
    ("Pour en savoir plus sur \"").data ++ title
      ++ ("\", consultez le lien dans la description.").data
  else if i = 1 then
    ("Si ce sujet vous intéresse, je vous invite à lire l'article complet. Le lien est dans la description.").data
  else
    ("Pour un tutoriel détaillé, cliquez sur le lien dans la description pour accéder à l'article complet.").data

/-- The `engagement_phrases` list of `_generate_conclusion`. -/
def engagementPhrase (i : Fin 3) : Str :=
  if i = 0 then
    ("N'oubliez pas de liker et de vous abonner pour plus de contenus comme celui-ci !").data
  else if i = 1 then
    ("Si cette vidéo vous a plu, n'hésitez pas à la partager et à vous abonner !").data
  else
    ("Merci d'avoir regardé ! Abonnez-vous pour ne manquer aucun de mes prochains shorts !").data

/-- `_generate_conclusion`: a template plus an engagement phrase
(the `url` argument is accepted but never interpolated into the text). -/
def generateConclusion (title _url : Str) (i j : Fin 3) : Str :=
  conclusionTemplate i title ++ ' ' :: engagementPhrase j

/-- The heading tags prioritized by `_generate_body`. -/
def headingTags : List Str :=
  [("H1").data, ("H2").data, ("H3").data, ("H4").data]

/-- First key-point collection loop of `_generate_body`: headings and
short paragraphs (20–200 characters), stopping once 3 points are kept. -/
def collectKeyPoints : List ContentBlock → List Str → List Str
  | [], acc => acc
  | b :: bs, acc =>
    let sType := pyUpper b.btype
    let sText := b.text
    let acc' :=
      if sType ∈ headingTags ∧ sText ≠ [] then acc ++ [sText]
      else if sType = ('P' :: []) ∧ 20 ≤ sText.length ∧ sText.length ≤ 200 then acc ++ [sText]
      else acc
    if 3 ≤ acc'.length then acc' else collectKeyPoints bs acc'

/-- Fallback collection loop of `_generate_body`: the first paragraphs
with nonempty text, stopping once 2 are kept. -/
def collectFallbackPoints : List ContentBlock → List Str → List Str
  | [], acc => acc
  | b :: bs, acc =>
    if pyUpper b.btype = ('P' :: []) ∧ b.text ≠ [] then
      let acc' := acc ++ [b.text]
      if 2 ≤ acc'.length then acc' else collectFallbackPoints bs acc'
    else collectFallbackPoints bs acc

/-- Per-point truncation of `_generate_body`: points longer than 100
characters are cut to 97 characters plus an ellipsis. -/
def truncatePoint (p : Str) : Str :=
  if 100 < p.length then p.take 97 ++ ("...").data else p

/-- The fixed sentence `_generate_body` emits when no content is usable. -/
def genericBodySentence : Str :=
  ("Cet article contient des informations intéressantes que vous pourrez découvrir en lisant l'article complet.").data

/-- `_generate_body`: use the summary when it is longer than 20
characters, otherwise assemble truncated key points, otherwise the
generic sentence. -/
def generateBody (content : List ContentBlock) (summary : Str) : Str :=
  if 20 < summary.length then summary
  else
    let keyPoints := collectKeyPoints content []
    let keyPoints := if keyPoints = [] then collectFallbackPoints content [] else keyPoints
    if keyPoints ≠ [] then
      pyStrip (("Voici ce que vous devez retenir : ").data
        ++ (keyPoints.map fun p => truncatePoint p ++ [' ']).flatten)
    else genericBodySentence

/-- `_adjust_script_length`: return the script unchanged when within
budget; otherwise, when the blank-line split yields at least three parts
and the remaining body budget is positive, keep intro and conclusion and
truncate the body; otherwise truncate the whole text to the first
`max_words` words.  (`max_body_words` is computed in ℕ: Python's possibly
negative value and ℕ's truncation at 0 select the same branch, and they
agree whenever the branch is taken.) -/
def adjustScriptLength (maxWords : Nat) (script : Str) : Str :=
  let words := pySplit script
  if words.length ≤ maxWords then script
  else
    let parts := splitOnBlank script
    if 3 ≤ parts.length then
      let intro := parts.headD []
      let conclusion := parts.getLastD []
      let bodyWords := pySplit (joinSpace ((parts.drop 1).dropLast))
      let maxBodyWords := maxWords - (pySplit intro).length - (pySplit conclusion).length
      if 0 < maxBodyWords then
        intro ++ blankSep ++ joinSpace (bodyWords.take maxBodyWords) ++ blankSep ++ conclusion
      else joinSpace (words.take maxWords)
    else joinSpace (words.take maxWords)

/-- `_estimate_duration`: `min(int(word_count / 2.5), max_duration)`.
`int(wc / 2.5)` equals `⌊2·wc / 5⌋`, i.e. natural division `2 * wc / 5`
(the float division is exact enough for every feasible word count). -/
def estimateDuration (cfg : ScriptConfig) (script : Str) : Nat :=
  min (2 * wordCount script / 5) cfg.maxDuration

/-- `generate_script`: assemble intro/body/conclusion, join on blank
lines, adjust to the word budget, and derive the metadata fields. -/
def generateScript (cfg : ScriptConfig) (a : ArticleData) (r : RandomChoices) : ScriptData :=
  let intro := generateIntro a.title a.author r.introIdx
  let body := generateBody a.content a.summary
  let conclusion := generateConclusion a.title a.url r.conclIdx r.engageIdx
  let fullScript := adjustScriptLength cfg.maxWords (intro ++ blankSep ++ body ++ blankSep ++ conclusion)
  { title := a.title
    intro := intro
    body := body
    conclusion := conclusion
    full_script := fullScript
    word_count := wordCount fullScript
    estimated_duration := estimateDuration cfg fullScript
    article_url := a.url }

/-! ## Video generator (`src/generator/video_generator.py`) -/

/-- The `ShortVideoGenerator` configuration (width, height, fps
constructor arguments; defaults 1080 × 1920 at 30 fps). -/
structure VideoGenConfig where
  width : Nat := 1080
  height : Nat := 1920
  fps : Nat := 30
deriving DecidableEq, Repr

/-- One rendered frame of `_create_text_frames`.  The PIL raster drawing
is opaque to the claims; a frame is fully determined by the render
inputs recorded here (all frames of one call are pixel-identical). -/
structure FrameSpec where
  text : Str
  title : Str
  includeUrl : Bool
  url : Str
  width : Nat
  height : Nat
deriving DecidableEq, Repr

/-- Python `int(q)`: truncation toward zero. -/
def pyInt (q : ℚ) : ℤ := if 0 ≤ q then ⌊q⌋ else ⌈q⌉

/-- `_create_text_frames`: `num_frames = int(duration * fps)` copies of
one static image; Python's `[img] * n` yields `[]` for `n ≤ 0`. -/
def createTextFrames (g : VideoGenConfig) (text : Str) (duration : ℚ)
    (title : Str) (includeUrl : Bool) (url : Str) : List FrameSpec :=
  let numFrames : ℤ := pyInt (duration * (g.fps : ℚ))
  List.replicate numFrames.toNat
    { text := text, title := title, includeUrl := includeUrl, url := url
      width := g.width, height := g.height }

/-- One of the three timed sections rendered by `generate_video`. -/
structure Segment where
  text : Str
  duration : ℤ
  title : Str
  includeUrl : Bool
  url : Str
deriving DecidableEq, Repr

/-- The three segments `generate_video` renders: intro (5 s, with
title), body (`estimated_duration - 10` s), conclusion (5 s, with the
URL overlay). -/
def videoSegments (r : ScriptData) : List Segment :=
  [{ text := r.intro, duration := 5, title := r.title, includeUrl := false, url := [] },
   { text := r.body, duration := (r.estimated_duration : ℤ) - 10, title := [],
     includeUrl := false, url := [] },
   { text := r.conclusion, duration := 5, title := [], includeUrl := true,
     url := r.article_url }]

/-- The concatenated frame list built by `generate_video` (the three
`_create_text_frames` calls followed by `frames.extend`). -/
def generateVideoFrames (g : VideoGenConfig) (r : ScriptData) : List FrameSpec :=
  let introFrames := createTextFrames g r.intro 5 r.title false []
  let bodyFrames := createTextFrames g r.body ((r.estimated_duration : ℚ) - 10) [] false []
  let conclusionFrames := createTextFrames g r.conclusion 5 [] true r.article_url
  introFrames ++ bodyFrames ++ conclusionFrames

/-- The error `_create_video_from_frames` raises (`ValueError("Aucune
image à inclure dans la vidéo")`, the spec's `EmptyInputError`). -/
inductive VideoWriteError where
  | emptyInput
deriving DecidableEq, Repr

/-- `_create_video_from_frames`: raise on an empty frame list, otherwise
write every frame to the output path (the RGB→BGR channel swap and the
best-effort ffmpeg re-encode never fail the call). -/
def createVideoFromFrames (frames : List FrameSpec) (outputPath : Str) :
    Except VideoWriteError (Str × List FrameSpec) :=
  if frames = [] then .error .emptyInput
  else .ok (outputPath, frames)

/-- `generate_video`: render the three segments, encode, and return the
output path (`None` when encoding raised). -/
def generateVideo (g : VideoGenConfig) (r : ScriptData) (outputPath : Str) : Option Str :=
  match createVideoFromFrames (generateVideoFrames g r) outputPath with
  | .ok _ => some outputPath
  | .error _ => none

/-! ## Audio-video integrators (`src/voice_avatar/`) -/

/-- Availability of the two external capabilities the integrators probe:
the `ffmpeg` executable and the `moviepy` package. -/
structure ToolEnv where
  ffmpeg : Bool
  moviepy : Bool
deriving DecidableEq, Repr

/-- Result of an integration: a single muxed media file, or (manual
bundle) a directory with its entries. -/
inductive IntegrationOutput where
  | file (path : Str)
  | bundle (dir : Str) (entries : List Str)
deriving DecidableEq, Repr

/-- The four entries `AlternativeIntegrator.integrate` places in the
manual-bundle directory: the copied video, the copied audio, the
generated shell script, and the generated instructions file. -/
def bundleEntries : List Str :=
  [("video.mp4").data, ("audio.mp3").data, ("combine.sh").data, ("README.txt").data]

/-- `AlternativeIntegrator.integrate`: with ffmpeg, mux to
`output_path`; without it, create a fresh directory (the output path
minus its four-character `.mp4` extension) holding exactly the four
bundle entries.  `outputPath` is the resolved output path, which the
source guarantees ends in `".mp4"`; the derivation of the default file
name from the video's base name is elided. -/
def alternativeIntegrate (env : ToolEnv) (_videoPath _audioPath outputPath : Str) :
    Option IntegrationOutput :=
  if env.ffmpeg then some (.file outputPath)
  else some (.bundle (outputPath.take (outputPath.length - 4)) bundleEntries)

/-- `VoiceVideoIntegrator.integrate`: ffmpeg mux, else moviepy
re-encode, else `None` (this class, unlike `AlternativeIntegrator`, has
no manual-bundle tier; the orchestrator wires `AlternativeIntegrator`
into the pipeline). -/
def voiceVideoIntegrate (env : ToolEnv) (_videoPath _audioPath outputPath : Str) :
    Option Str :=
  if env.ffmpeg then some outputPath
  else if env.moviepy then some outputPath
  else none

/-- A small concrete article (one-letter title, unknown author, a
21-character one-word summary) used to instantiate theorems. -/
def exampleArticle : ArticleData :=
  { title := ("t").data
    author := []
    summary := ("aaaaaaaaaaaaaaaaaaaaa").data
    content := []
    url := [] }

/-- A script record whose estimated duration is zero, exhibiting the
unfloored body-segment duration of `generate_video`. -/
def zeroDurationScript : ScriptData :=
  { title := []
    intro := []
    body := []
    conclusion := []
    full_script := []
    word_count := 0
    estimated_duration := 0
    article_url := [] }

/-! ## Word-splitting lemmas -/

theorem pySplitAux_append_space (ch : Char) (hch : isSpace ch = true) (a : Str) :
    ∀ (cur b : Str), pySplitAux cur (a ++ ch :: b) = pySplitAux cur a ++ pySplitAux [] b := by
  induction a with
  | nil =>
    intro cur b
    simp only [List.nil_append, pySplitAux, hch, if_true]
    by_cases h : cur = [] <;> simp [h]
  | cons c a ih =>
    intro cur b
    simp only [List.cons_append, pySplitAux]
    by_cases hc : isSpace c
    · by_cases h : cur = [] <;> simp [hc, h, ih]
    · simp [hc, ih]

theorem pySplit_append_space (ch : Char) (hch : isSpace ch = true) (a b : Str) :
    pySplit (a ++ ch :: b) = pySplit a ++ pySplit b :=
  pySplitAux_append_space ch hch a [] b

theorem pySplit_cons_space (ch : Char) (hch : isSpace ch = true) (b : Str) :
    pySplit (ch :: b) = pySplit b := by
  simp [pySplit, pySplitAux, hch]

theorem pySplitAux_no_space (w : Str) (hw : ∀ c ∈ w, isSpace c = false) :
    ∀ cur : Str, pySplitAux cur w =
      if cur.reverse ++ w = [] then [] else [cur.reverse ++ w] := by
  induction w with
  | nil =>
    intro cur
    simp only [pySplitAux, List.append_nil]
    by_cases h : cur = [] <;> simp [h]
  | cons c w ih =>
    intro cur
    have hc : isSpace c = false := hw c (List.mem_cons_self _ _)
    rw [show pySplitAux cur (c :: w) = pySplitAux (c :: cur) w by simp [pySplitAux, hc],
      ih (fun x hx => hw x (List.mem_cons_of_mem _ hx)) (c :: cur)]
    simp

theorem pySplit_no_space (w : Str) (hw0 : w ≠ []) (hw : ∀ c ∈ w, isSpace c = false) :
    pySplit w = [w] := by
  simpa [pySplit, hw0] using pySplitAux_no_space w hw []

theorem mem_pySplitAux (s : Str) :
    ∀ (cur w : Str), w ∈ pySplitAux cur s → (∀ c ∈ cur, isSpace c = false) →
      w ≠ [] ∧ ∀ c ∈ w, isSpace c = false := by
  induction s with
  | nil =>
    intro cur w hmem hcur
    by_cases h : cur = []
    · simp [pySplitAux, h] at hmem
    · simp only [pySplitAux, if_neg h, List.mem_singleton] at hmem
      subst hmem
      exact ⟨by simpa using h, fun c hc => hcur c (List.mem_reverse.mp hc)⟩
  | cons c cs ih =>
    intro cur w hmem hcur
    simp only [pySplitAux] at hmem
    by_cases hc : isSpace c
    · rw [if_pos hc] at hmem
      by_cases h : cur = []
      · rw [if_pos h] at hmem
        exact ih [] w hmem (by simp)
      · rw [if_neg h] at hmem
        rcases List.mem_cons.mp hmem with rfl | hmem'
        · exact ⟨by simpa using h, fun x hx => hcur x (List.mem_reverse.mp hx)⟩
        · exact ih [] w hmem' (by simp)
    · rw [if_neg hc] at hmem
      refine ih (c :: cur) w hmem ?_
      intro x hx
      rcases List.mem_cons.mp hx with rfl | hx'
      · exact Bool.eq_false_iff.mpr hc
      · exact hcur x hx'

theorem mem_pySplit (s w : Str) (h : w ∈ pySplit s) :
    w ≠ [] ∧ ∀ c ∈ w, isSpace c = false :=
  mem_pySplitAux s [] w h (by simp)

theorem pySplit_joinSpace (ws : List Str)
    (h : ∀ w ∈ ws, w ≠ [] ∧ ∀ c ∈ w, isSpace c = false) :
    pySplit (joinSpace ws) = ws := by
  induction ws with
  | nil => simp [joinSpace, pySplit, pySplitAux]
  | cons w ws ih =>
    cases ws with
    | nil =>
      rw [show joinSpace [w] = w from rfl]
      exact pySplit_no_space w (h w (by simp)).1 (h w (by simp)).2
    | cons v vs =>
      rw [show joinSpace (w :: v :: vs) = w ++ ' ' :: joinSpace (v :: vs) from rfl,
        pySplit_append_space ' ' (by decide),
        pySplit_no_space w (h w (by simp)).1 (h w (by simp)).2,
        ih (fun x hx => h x (List.mem_cons_of_mem _ hx))]
      rfl

theorem wordCount_joinSpace (ws : List Str) :
    wordCount (joinSpace ws) = (ws.map wordCount).sum := by
  induction ws with
  | nil => simp [joinSpace, wordCount, pySplit, pySplitAux]
  | cons w ws ih =>
    cases ws with
    | nil => simp [joinSpace, wordCount]
    | cons v vs =>
      rw [show joinSpace (w :: v :: vs) = w ++ ' ' :: joinSpace (v :: vs) from rfl,
        wordCount, pySplit_append_space ' ' (by decide), List.length_append]
      rw [← wordCount, ← wordCount, ih]
      simp

theorem wordCount_joinSpace_take (s : Str) (m : Nat) :
    wordCount (joinSpace ((pySplit s).take m)) = min m (wordCount s) := by
  rw [wordCount,
    pySplit_joinSpace _ (fun w hw => mem_pySplit s w (List.take_subset _ _ hw)),
    List.length_take]
  rfl

/-! ## Blank-line splitting lemmas -/

theorem splitOnBlankAux_ne_nil (cur s : Str) : splitOnBlankAux cur s ≠ [] := by
  induction cur, s using splitOnBlankAux.induct with
  | case1 cur => simp [splitOnBlankAux]
  | case2 cur c => simp [splitOnBlankAux]
  | case3 cur c d cs h ih => simp [splitOnBlankAux, h]
  | case4 cur c d cs h ih =>
    simp only [splitOnBlankAux]
    split
    · simp
    · exact ih

theorem joinBlank_splitOnBlankAux (cur s : Str) :
    joinBlank (splitOnBlankAux cur s) = cur.reverse ++ s := by
  induction cur, s using splitOnBlankAux.induct with
  | case1 cur => simp [splitOnBlankAux, joinBlank]
  | case2 cur c => simp [splitOnBlankAux, joinBlank]
  | case3 cur c d cs h ih =>
    obtain ⟨q, qs, hq⟩ := List.exists_cons_of_ne_nil (splitOnBlankAux_ne_nil [] cs)
    rw [show splitOnBlankAux cur (c :: d :: cs) = cur.reverse :: splitOnBlankAux [] cs by
        simp [splitOnBlankAux, h], hq,
      show joinBlank (cur.reverse :: q :: qs) = cur.reverse ++ '\n' :: '\n' :: joinBlank (q :: qs)
        from rfl, ← hq, ih]
    simp [h.1, h.2]
  | case4 cur c d cs h ih =>
    rw [show splitOnBlankAux cur (c :: d :: cs) = splitOnBlankAux (c :: cur) (d :: cs) by
        rw [show splitOnBlankAux cur (c :: d :: cs) =
            if c = '\n' ∧ d = '\n' then cur.reverse :: splitOnBlankAux [] cs
            else splitOnBlankAux (c :: cur) (d :: cs) from rfl, if_neg]
        intro hcd
        exact h hcd, ih]
    simp

theorem joinBlank_splitOnBlank (s : Str) : joinBlank (splitOnBlank s) = s :=
  joinBlank_splitOnBlankAux [] s

theorem wordCount_joinBlank (ps : List Str) :
    wordCount (joinBlank ps) = (ps.map wordCount).sum := by
  induction ps with
  | nil => simp [joinBlank, wordCount, pySplit, pySplitAux]
  | cons p ps ih =>
    cases ps with
    | nil => simp [joinBlank, wordCount]
    | cons q qs =>
      rw [show joinBlank (p :: q :: qs) = p ++ '\n' :: '\n' :: joinBlank (q :: qs) from rfl,
        wordCount, pySplit_append_space '\n' (by decide),
        pySplit_cons_space '\n' (by decide), List.length_append,
        ← wordCount, ← wordCount, ih]
      simp

theorem dropLast_append_getLastD {α : Type} :
    ∀ (l : List α) (d : α), l ≠ [] → l.dropLast ++ [l.getLastD d] = l := by
  intro l
  induction l with
  | nil => simp
  | cons x t ih =>
    intro d _
    cases t with
    | nil => simp
    | cons y s =>
      rw [show (x :: y :: s).dropLast = x :: (y :: s).dropLast from rfl,
        show (x :: y :: s).getLastD d = (y :: s).getLastD x from rfl]
      simpa using ih x (by simp)

/-- A list of length at least two decomposes as its head, its middle
slice (Python `l[1:-1]`), and its last element. -/
theorem headD_middle_getLastD (l : List Str) (h : 2 ≤ l.length) :
    l = l.headD [] :: (((l.drop 1).dropLast) ++ [l.getLastD []]) := by
  cases l with
  | nil => simp at h
  | cons x t =>
    have ht : t ≠ [] := by
      cases t with
      | nil => simp at h
      | cons _ _ => simp
    rw [show (x :: t).headD [] = x from rfl, List.drop_one, List.tail_cons,
      show (x :: t).getLastD [] = t.getLastD x from by
        cases t with
        | nil => exact absurd rfl ht
        | cons _ _ => rfl,
      dropLast_append_getLastD t x ht]

/-! ## Budgeter lemmas -/

theorem wordCount_three_join (i b c : Str) :
    wordCount (i ++ blankSep ++ b ++ blankSep ++ c) =
      wordCount i + wordCount b + wordCount c := by
  have e : i ++ blankSep ++ b ++ blankSep ++ c
      = i ++ '\n' :: ('\n' :: (b ++ '\n' :: ('\n' :: c))) := by
    simp [blankSep]
  rw [wordCount, e, pySplit_append_space '\n' (by decide), pySplit_cons_space '\n' (by decide),
    pySplit_append_space '\n' (by decide), pySplit_cons_space '\n' (by decide)]
  simp [wordCount, Nat.add_assoc]

/-- Within budget, `_adjust_script_length` is the identity. -/
theorem adjust_of_within (m : Nat) (s : Str) (h : wordCount s ≤ m) :
    adjustScriptLength m s = s := by
  simp only [adjustScriptLength]
  exact if_pos h

/-- Over budget, every branch of `_adjust_script_length` lands exactly on
`max_words` words. -/
theorem wordCount_adjust_over (m : Nat) (s : Str) (h : m < wordCount s) :
    wordCount (adjustScriptLength m s) = m := by
  have hns : ¬ ((pySplit s).length ≤ m) := not_le.mpr h
  simp only [adjustScriptLength]
  rw [if_neg hns]
  by_cases h3 : 3 ≤ (splitOnBlank s).length
  · rw [if_pos h3]
    set parts := splitOnBlank s with hparts
    set i := parts.headD [] with hi
    set c := parts.getLastD [] with hc
    set mid := (parts.drop 1).dropLast with hmid
    have hdec : parts = i :: (mid ++ [c]) := headD_middle_getLastD parts (by omega)
    have hws : wordCount s = wordCount i + ((mid.map wordCount).sum + wordCount c) := by
      conv_lhs => rw [← joinBlank_splitOnBlank s, ← hparts]
      rw [hdec, wordCount_joinBlank]
      simp [List.map_append]
    have hbw : (pySplit (joinSpace mid)).length = (mid.map wordCount).sum :=
      wordCount_joinSpace mid
    by_cases hb : 0 < m - (pySplit i).length - (pySplit c).length
    · rw [if_pos hb]
      rw [wordCount_three_join]
      have htake :
          wordCount (joinSpace ((pySplit (joinSpace mid)).take
              (m - (pySplit i).length - (pySplit c).length)))
            = min (m - (pySplit i).length - (pySplit c).length)
                ((pySplit (joinSpace mid)).length) := by
        rw [wordCount,
          pySplit_joinSpace _ (fun w hw => mem_pySplit _ w (List.take_subset _ _ hw)),
          List.length_take]
      rw [htake, hbw]
      have h1 : (pySplit i).length = wordCount i := rfl
      have h2 : (pySplit c).length = wordCount c := rfl
      rw [h1, h2] at hb ⊢
      have hSb : m - wordCount i - wordCount c ≤ (mid.map wordCount).sum := by omega
      rw [min_eq_left hSb]
      omega
    · rw [if_neg hb, wordCount_joinSpace_take, min_eq_left (le_of_lt h)]
  · rw [if_neg h3, wordCount_joinSpace_take, min_eq_left (le_of_lt h)]

/-- `int(n / 2.5)` in Python agrees with natural division `2 * n / 5`. -/
theorem floor_div_two_point_five (n : Nat) :
    ⌊(n : ℚ) / 2.5⌋ = ((2 * n / 5 : ℕ) : ℤ) := by
  have h1 : (n : ℚ) / 2.5 = ((2 * n : ℕ) : ℚ) / ((5 : ℕ) : ℚ) := by
    push_cast
    rw [show (2.5 : ℚ) = 5 / 2 by norm_num]
    ring
  rw [h1]
  refine Int.floor_eq_iff.mpr ⟨?_, ?_⟩
  · rw [Int.cast_natCast, le_div_iff₀ (by norm_num : (0 : ℚ) < ((5 : ℕ) : ℚ))]
    exact_mod_cast Nat.div_mul_le_self (2 * n) 5
  · rw [Int.cast_natCast, div_lt_iff₀ (by norm_num : (0 : ℚ) < ((5 : ℕ) : ℚ))]
    have hdm := Nat.div_add_mod (2 * n) 5
    have hlt : 2 * n % 5 < 5 := Nat.mod_lt _ (by norm_num)
    exact_mod_cast (by omega : 2 * n < (2 * n / 5 + 1) * 5)

/-! ## Claims about the Script Budgeter and Duration Estimator -/

/-- **C1.** For every script that exceeds `max_words` and splits on the
blank-line separator into exactly three parts, `_adjust_script_length`
preserves intro and conclusion verbatim and truncates the body at a word
boundary to `max_words − words(intro) − words(conclusion)` words, so the
result has at most `max_words` words; when that body budget is ≤ 0 it
instead truncates the whole joined text to its first `max_words` words. -/
theorem claim_adjust_three_part_overflow (m : Nat) (s i b c : Str)
    (hsplit : splitOnBlank s = [i, b, c]) (hover : m < wordCount s) :
    (0 < m - wordCount i - wordCount c →
      adjustScriptLength m s =
        i ++ blankSep ++ joinSpace ((pySplit b).take (m - wordCount i - wordCount c))
          ++ blankSep ++ c ∧
      wordCount (adjustScriptLength m s) ≤ m) ∧
    (m - wordCount i - wordCount c = 0 →
      adjustScriptLength m s = joinSpace ((pySplit s).take m)) := by
  have hbound := wordCount_adjust_over m s hover
  have hns : ¬ ((pySplit s).length ≤ m) := not_le.mpr hover
  have h3 : 3 ≤ (splitOnBlank s).length := by rw [hsplit]; simp
  constructor
  · intro hb
    refine ⟨?_, le_of_eq hbound⟩
    simp only [adjustScriptLength]
    rw [if_neg hns, if_pos h3, hsplit]
    show (if 0 < m - wordCount i - wordCount c
        then i ++ blankSep ++
          joinSpace ((pySplit b).take (m - wordCount i - wordCount c)) ++ blankSep ++ c
        else joinSpace ((pySplit s).take m)) = _
    rw [if_pos hb]
  · intro hz
    simp only [adjustScriptLength]
    rw [if_neg hns, if_pos h3, hsplit]
    show (if 0 < m - wordCount i - wordCount c
        then i ++ blankSep ++
          joinSpace ((pySplit b).take (m - wordCount i - wordCount c)) ++ blankSep ++ c
        else joinSpace ((pySplit s).take m)) = _
    rw [if_neg (by omega)]

/-- Witness for C1: `"a\n\nb1 b2 b3\n\nc"` with `max_words = 3` keeps
`"a"` and `"c"` and truncates the body to one word. -/
theorem claim_adjust_three_part_overflow_witness :
    splitOnBlank (("a\n\nb1 b2 b3\n\nc").data)
        = [("a").data, ("b1 b2 b3").data, ("c").data] ∧
    3 < wordCount (("a\n\nb1 b2 b3\n\nc").data) ∧
    0 < 3 - wordCount (("a").data) - wordCount (("c").data) ∧
    adjustScriptLength 3 (("a\n\nb1 b2 b3\n\nc").data) =
      ("a").data ++ blankSep ++
        joinSpace ((pySplit (("b1 b2 b3").data)).take
          (3 - wordCount (("a").data) - wordCount (("c").data))) ++ blankSep ++ ("c").data ∧
    wordCount (adjustScriptLength 3 (("a\n\nb1 b2 b3\n\nc").data)) ≤ 3 :=
  ⟨by decide, by decide, by decide,
    ((claim_adjust_three_part_overflow 3 (("a\n\nb1 b2 b3\n\nc").data) (("a").data)
      (("b1 b2 b3").data) (("c").data) (by decide) (by decide)).1 (by decide)).1,
    ((claim_adjust_three_part_overflow 3 (("a\n\nb1 b2 b3\n\nc").data) (("a").data)
      (("b1 b2 b3").data) (("c").data) (by decide) (by decide)).1 (by decide)).2⟩

/-- **C9.** For every script whose word count is at most `max_words`,
`_adjust_script_length` returns the text completely unmodified. -/
theorem claim_adjust_within_budget (m : Nat) (s : Str) (h : wordCount s ≤ m) :
    adjustScriptLength m s = s :=
  adjust_of_within m s h

/-- Witness for C9 at a concrete three-part script within budget. -/
theorem claim_adjust_within_budget_witness :
    wordCount (("a b\n\nc d e\n\nf").data) ≤ 150 ∧
      adjustScriptLength 150 (("a b\n\nc d e\n\nf").data) = ("a b\n\nc d e\n\nf").data :=
  ⟨by decide, claim_adjust_within_budget 150 (("a b\n\nc d e\n\nf").data) (by decide)⟩

/-- **C10.** `_adjust_script_length` is idempotent: applying it twice
yields the same result as applying it once, for every input and budget. -/
theorem claim_adjust_idempotent (m : Nat) (s : Str) :
    adjustScriptLength m (adjustScriptLength m s) = adjustScriptLength m s := by
  by_cases h : wordCount s ≤ m
  · rw [adjust_of_within m s h, adjust_of_within m s h]
  · exact adjust_of_within m _ (le_of_eq (wordCount_adjust_over m s (not_le.mp h)))

/-- **C2.** `_estimate_duration` returns
`min(int(word_count / 2.5), max_duration)`; it is within
`[0, max_duration]` and equals `int(word_count / 2.5)` whenever that
value is at most `max_duration`.  It is a total pure function. -/
theorem claim_estimate_duration (cfg : ScriptConfig) (s : Str) :
    (estimateDuration cfg s : ℤ)
        = min ⌊(wordCount s : ℚ) / 2.5⌋ (cfg.maxDuration : ℤ) ∧
    estimateDuration cfg s ≤ cfg.maxDuration ∧
    (⌊(wordCount s : ℚ) / 2.5⌋ ≤ (cfg.maxDuration : ℤ) →
      (estimateDuration cfg s : ℤ) = ⌊(wordCount s : ℚ) / 2.5⌋) := by
  have hf := floor_div_two_point_five (wordCount s)
  refine ⟨?_, Nat.min_le_right _ _, ?_⟩
  · rw [hf, estimateDuration]
    push_cast
    rfl
  · intro hle
    rw [hf] at hle ⊢
    rw [estimateDuration, min_eq_left (by exact_mod_cast hle)]

/-- Witness for C2 on a 7-word script (`int(7 / 2.5) = 2 ≤ 60`). -/
theorem claim_estimate_duration_witness :
    ⌊(wordCount (("a b c d e f g").data) : ℚ) / 2.5⌋ ≤ ((60 : Nat) : ℤ) ∧
      (estimateDuration { maxDuration := 60, maxWords := 150 } (("a b c d e f g").data) : ℤ)
        = ⌊(wordCount (("a b c d e f g").data) : ℚ) / 2.5⌋ :=
  ⟨by rw [floor_div_two_point_five]; decide,
    (claim_estimate_duration { maxDuration := 60, maxWords := 150 }
      (("a b c d e f g").data)).2.2 (by rw [floor_div_two_point_five]; decide)⟩

/-! ## Claims about the Frame Renderer, Video Encoder, and Integrator -/

/-- A nonpositive rational truncates (Python `int`) to a nonpositive
integer. -/
theorem pyInt_nonpos {q : ℚ} (h : q ≤ 0) : pyInt q ≤ 0 := by
  rw [pyInt]
  split
  · have hq : q = 0 := le_antisymm h (by assumption)
    simp [hq]
  · exact Int.ceil_le.mpr (by exact_mod_cast h)

/-- `_create_text_frames` produces no frames when the truncated frame
count is nonpositive. -/
theorem createTextFrames_eq_nil (g : VideoGenConfig) (text : Str) (d : ℚ)
    (title : Str) (iu : Bool) (url : Str) (h : pyInt (d * (g.fps : ℚ)) ≤ 0) :
    createTextFrames g text d title iu url = [] := by
  simp [createTextFrames, Int.toNat_eq_zero.mpr h]

/-- **C3.** `_create_text_frames` returns exactly
`int(duration * fps)` frames (floor of the product when it is
nonnegative), and an empty sequence — with no error — whenever the
truncated frame count is ≤ 0, in particular for zero or negative
durations. -/
theorem claim_create_text_frames (g : VideoGenConfig) (text : Str) (d : ℚ)
    (title : Str) (iu : Bool) (url : Str) :
    (createTextFrames g text d title iu url).length = (pyInt (d * (g.fps : ℚ))).toNat ∧
    (0 ≤ d * (g.fps : ℚ) →
      ((createTextFrames g text d title iu url).length : ℤ) = ⌊d * (g.fps : ℚ)⌋) ∧
    (pyInt (d * (g.fps : ℚ)) ≤ 0 → createTextFrames g text d title iu url = []) := by
  refine ⟨by simp [createTextFrames], ?_, createTextFrames_eq_nil g text d title iu url⟩
  intro h
  rw [show (createTextFrames g text d title iu url).length
      = (pyInt (d * (g.fps : ℚ))).toNat by simp [createTextFrames],
    pyInt, if_pos h, Int.toNat_of_nonneg (Int.floor_nonneg.mpr h)]

/-- Witness for C3: 2 s at 30 fps gives 60 frames; 0 s gives no frames. -/
theorem claim_create_text_frames_witness :
    ((0 : ℚ) ≤ (2 : ℚ) * (((30 : Nat) : ℚ)) ∧
      ((createTextFrames { width := 1080, height := 1920, fps := 30 } (("x").data) 2 [] false []).length : ℤ)
        = ⌊(2 : ℚ) * (((30 : Nat) : ℚ))⌋) ∧
    (pyInt ((0 : ℚ) * (((30 : Nat) : ℚ))) ≤ 0 ∧
      createTextFrames { width := 1080, height := 1920, fps := 30 } (("x").data) 0 [] false [] = []) :=
  ⟨⟨by norm_num,
    (claim_create_text_frames { width := 1080, height := 1920, fps := 30 } (("x").data) 2 [] false []).2.1
      (by norm_num)⟩,
   ⟨by norm_num [pyInt],
    (claim_create_text_frames { width := 1080, height := 1920, fps := 30 } (("x").data) 0 [] false []).2.2
      (by norm_num [pyInt])⟩⟩

/-- **C5.** `_create_video_from_frames` raises the empty-input error iff
the concatenated frame sequence is empty; on a non-empty sequence it
writes the frames to the output path. -/
theorem claim_create_video_empty_iff (frames : List FrameSpec) (p : Str) :
    (createVideoFromFrames frames p = .error .emptyInput ↔ frames = []) ∧
    (frames ≠ [] → createVideoFromFrames frames p = .ok (p, frames)) := by
  constructor
  · constructor
    · intro h
      by_contra hne
      rw [createVideoFromFrames, if_neg hne] at h
      exact Except.noConfusion h
    · intro h
      rw [createVideoFromFrames, if_pos h]
  · intro h
    rw [createVideoFromFrames, if_neg h]

/-- Witness for C5 at a singleton frame list. -/
theorem claim_create_video_empty_iff_witness :
    ([({ text := [], title := [], includeUrl := false, url := [], width := 1, height := 1 } : FrameSpec)] ≠ ([] : List FrameSpec)) ∧
    createVideoFromFrames
        [({ text := [], title := [], includeUrl := false, url := [], width := 1, height := 1 } : FrameSpec)]
        (("o.mp4").data)
      = .ok ((("o.mp4").data),
        [({ text := [], title := [], includeUrl := false, url := [], width := 1, height := 1 } : FrameSpec)]) :=
  ⟨by decide,
    (claim_create_video_empty_iff
      [({ text := [], title := [], includeUrl := false, url := [], width := 1, height := 1 } : FrameSpec)]
      (("o.mp4").data)).2 (by decide)⟩

/-- **C4.** The pipeline's integrator (`AlternativeIntegrator.integrate`,
the one `ShortsGenerator` wires in) returns a non-null result for every
tool availability — with ffmpeg (full or partial tools) a single file,
without any muxing tool a directory holding exactly four entries: the
copied video, the copied audio, the generated shell script, and the
generated instructions file. -/
theorem claim_alternative_integrate_total (env : ToolEnv) (v a o : Str) :
    (alternativeIntegrate env v a o).isSome = true ∧
    (env.ffmpeg = false →
      alternativeIntegrate env v a o
          = some (.bundle (o.take (o.length - 4)) bundleEntries) ∧
      bundleEntries.length = 4) := by
  constructor
  · rw [alternativeIntegrate]
    split <;> rfl
  · intro h
    rw [alternativeIntegrate, if_neg (by simp [h])]
    exact ⟨rfl, rfl⟩

/-- Witness for C4 in the no-tools scenario. -/
theorem claim_alternative_integrate_total_witness :
    (({ ffmpeg := false, moviepy := false } : ToolEnv).ffmpeg = false) ∧
    alternativeIntegrate { ffmpeg := false, moviepy := false }
        (("v.mp4").data) (("a.mp3").data) (("out.mp4").data)
      = some (.bundle ((("out.mp4").data).take ((("out.mp4").data).length - 4)) bundleEntries) ∧
    bundleEntries.length = 4 :=
  ⟨rfl,
    (claim_alternative_integrate_total { ffmpeg := false, moviepy := false }
      (("v.mp4").data) (("a.mp3").data) (("out.mp4").data)).2 rfl⟩

/-! ## Claims about `generate_script` and `generate_video` structure -/

/-- Counterexample to C6 as stated: with `max_words = 5`, truncation
makes `full_script` differ from the stored `intro`/`body`/`conclusion`
fields joined by blank lines (the `body` field keeps the untruncated
text). -/
theorem claim_script_record_join_cex :
    (generateScript { maxDuration := 60, maxWords := 5 } exampleArticle
        { introIdx := 0, conclIdx := 0, engageIdx := 0 }).full_script ≠
      (generateScript { maxDuration := 60, maxWords := 5 } exampleArticle
        { introIdx := 0, conclIdx := 0, engageIdx := 0 }).intro ++ blankSep ++
      (generateScript { maxDuration := 60, maxWords := 5 } exampleArticle
        { introIdx := 0, conclIdx := 0, engageIdx := 0 }).body ++ blankSep ++
      (generateScript { maxDuration := 60, maxWords := 5 } exampleArticle
        { introIdx := 0, conclIdx := 0, engageIdx := 0 }).conclusion := by
  decide

/-- **C6 (amended).** Every `ScriptRecord` satisfies: `word_count`
equals the word count of `full_script`; `full_script` equals the
intro/body/conclusion fields joined by blank lines *passed through the
length adjuster*; and whenever the joined text is within `max_words`,
`full_script` is exactly that joined text. -/
theorem claim_script_record_invariant (cfg : ScriptConfig) (a : ArticleData)
    (r : RandomChoices) :
    (generateScript cfg a r).word_count = wordCount (generateScript cfg a r).full_script ∧
    (generateScript cfg a r).full_script =
      adjustScriptLength cfg.maxWords
        ((generateScript cfg a r).intro ++ blankSep ++ (generateScript cfg a r).body
          ++ blankSep ++ (generateScript cfg a r).conclusion) ∧
    (wordCount ((generateScript cfg a r).intro ++ blankSep ++ (generateScript cfg a r).body
          ++ blankSep ++ (generateScript cfg a r).conclusion) ≤ cfg.maxWords →
      (generateScript cfg a r).full_script =
        (generateScript cfg a r).intro ++ blankSep ++ (generateScript cfg a r).body
          ++ blankSep ++ (generateScript cfg a r).conclusion) := by
  refine ⟨rfl, rfl, ?_⟩
  intro h
  exact adjust_of_within cfg.maxWords _ h

/-- Witness for C6 (amended): the default 150-word budget leaves the
example article's script untruncated. -/
theorem claim_script_record_invariant_witness :
    wordCount ((generateScript { maxDuration := 60, maxWords := 150 } exampleArticle
        { introIdx := 0, conclIdx := 0, engageIdx := 0 }).intro ++ blankSep ++
      (generateScript { maxDuration := 60, maxWords := 150 } exampleArticle
        { introIdx := 0, conclIdx := 0, engageIdx := 0 }).body ++ blankSep ++
      (generateScript { maxDuration := 60, maxWords := 150 } exampleArticle
        { introIdx := 0, conclIdx := 0, engageIdx := 0 }).conclusion) ≤ 150 ∧
    (generateScript { maxDuration := 60, maxWords := 150 } exampleArticle
        { introIdx := 0, conclIdx := 0, engageIdx := 0 }).full_script =
      (generateScript { maxDuration := 60, maxWords := 150 } exampleArticle
        { introIdx := 0, conclIdx := 0, engageIdx := 0 }).intro ++ blankSep ++
      (generateScript { maxDuration := 60, maxWords := 150 } exampleArticle
        { introIdx := 0, conclIdx := 0, engageIdx := 0 }).body ++ blankSep ++
      (generateScript { maxDuration := 60, maxWords := 150 } exampleArticle
        { introIdx := 0, conclIdx := 0, engageIdx := 0 }).conclusion :=
  ⟨by decide,
    (claim_script_record_invariant { maxDuration := 60, maxWords := 150 } exampleArticle
      { introIdx := 0, conclIdx := 0, engageIdx := 0 }).2.2 (by decide)⟩

/-- Counterexample to C7 as stated: no positive minimum `m` floors the
body segment's duration — at `estimated_duration = 0` the code produces
a duration of `-10`, below every positive floor. -/
theorem claim_video_segments_not_floored_cex :
    ¬ ∃ m : ℤ, 0 < m ∧ ∀ r : ScriptData,
        (videoSegments r).map Segment.duration
          = [5, max ((r.estimated_duration : ℤ) - 10) m, 5] := by
  rintro ⟨m, hm, hall⟩
  have h := hall zeroDurationScript
  simp only [videoSegments, zeroDurationScript, List.map_cons, List.map_nil,
    List.cons.injEq, and_true, true_and] at h
  rw [max_eq_right (by omega : ((0 : Nat) : ℤ) - 10 ≤ m)] at h
  omega

/-- **C7 (amended).** `generate_video` renders exactly three segments —
intro fixed at 5 s with the title, body at exactly
`estimated_duration − 10` s with **no** positive floor, conclusion fixed
at 5 s carrying the URL overlay — and when `estimated_duration ≤ 10`
the body segment renders no frames at all. -/
theorem claim_video_three_segments (g : VideoGenConfig) (r : ScriptData) :
    (videoSegments r).length = 3 ∧
    (videoSegments r).map Segment.duration = [5, (r.estimated_duration : ℤ) - 10, 5] ∧
    videoSegments r =
      [{ text := r.intro, duration := 5, title := r.title, includeUrl := false, url := [] },
       { text := r.body, duration := (r.estimated_duration : ℤ) - 10, title := [],
         includeUrl := false, url := [] },
       { text := r.conclusion, duration := 5, title := [], includeUrl := true,
         url := r.article_url }] ∧
    generateVideoFrames g r
      = createTextFrames g r.intro 5 r.title false []
        ++ createTextFrames g r.body ((r.estimated_duration : ℚ) - 10) [] false []
        ++ createTextFrames g r.conclusion 5 [] true r.article_url ∧
    (r.estimated_duration ≤ 10 →
      createTextFrames g r.body ((r.estimated_duration : ℚ) - 10) [] false [] = []) := by
  refine ⟨rfl, by simp [videoSegments], rfl, rfl, ?_⟩
  intro h
  apply createTextFrames_eq_nil
  apply pyInt_nonpos
  have h10 : (r.estimated_duration : ℚ) ≤ 10 := by exact_mod_cast h
  have hfps : (0 : ℚ) ≤ (g.fps : ℚ) := by positivity
  nlinarith [mul_nonneg (by linarith : (0 : ℚ) ≤ 10 - (r.estimated_duration : ℚ)) hfps]

/-- Witness for C7 (amended) at `estimated_duration = 0`. -/
theorem claim_video_three_segments_witness :
    zeroDurationScript.estimated_duration ≤ 10 ∧
    createTextFrames { width := 1080, height := 1920, fps := 30 }
        zeroDurationScript.body ((zeroDurationScript.estimated_duration : ℚ) - 10)
        [] false [] = [] :=
  ⟨by decide,
    (claim_video_three_segments { width := 1080, height := 1920, fps := 30 }
      zeroDurationScript).2.2.2.2 (by decide)⟩

/-- Counterexample to C8 as stated: with the same article, configuration
and tool availability, two invocations that draw different intro
templates produce different outputs — the stage is randomized, not
deterministic. -/
theorem claim_generate_script_random_cex :
    generateScript { maxDuration := 60, maxWords := 150 } exampleArticle
        { introIdx := 0, conclIdx := 0, engageIdx := 0 } ≠
      generateScript { maxDuration := 60, maxWords := 150 } exampleArticle
        { introIdx := 1, conclIdx := 0, engageIdx := 0 } := by
  decide

/-- **C8 (amended).** Script generation is deterministic once the random
template draws are included among the inputs: any two invocations with
field-wise identical articles, identical configuration, and identical
template draws produce identical outputs. -/
theorem claim_generate_script_deterministic (cfg : ScriptConfig) (a₁ a₂ : ArticleData)
    (r₁ r₂ : RandomChoices) (ht : a₁.title = a₂.title) (ha : a₁.author = a₂.author)
    (hs : a₁.summary = a₂.summary) (hc : a₁.content = a₂.content) (hu : a₁.url = a₂.url)
    (hr : r₁ = r₂) :
    generateScript cfg a₁ r₁ = generateScript cfg a₂ r₂ := by
  have ha2 : a₁ = a₂ := by
    cases a₁
    cases a₂
    simp_all
  rw [ha2, hr]

/-- Witness for C8 (amended) at the example article. -/
theorem claim_generate_script_deterministic_witness :
    exampleArticle.title = exampleArticle.title ∧
    generateScript { maxDuration := 60, maxWords := 150 } exampleArticle
        { introIdx := 2, conclIdx := 1, engageIdx := 2 } =
      generateScript { maxDuration := 60, maxWords := 150 } exampleArticle
        { introIdx := 2, conclIdx := 1, engageIdx := 2 } :=
  ⟨rfl,
    claim_generate_script_deterministic { maxDuration := 60, maxWords := 150 }
      exampleArticle exampleArticle { introIdx := 2, conclIdx := 1, engageIdx := 2 }
      { introIdx := 2, conclIdx := 1, engageIdx := 2 } rfl rfl rfl rfl rfl rfl⟩

end ShortsPipeline
